import Mathlib

/-!
# Verification of the Gmail/OpenAI email-draft generator

A shallow embedding of the batch draft generator (`main.go` and the
variant snapshots in `src/unnamed/`).  Pure string manipulation is
translated to Lean functions on `String`/`List Char`; the outside
collaborators (OpenAI chat completion, Gmail draft creation, the
attachment file, the progress file) become explicit inputs: an oracle
`Nat → Option String` for the per-row generation result of `main.go`
(whose `generateResearchParagraph` turns an empty choice list into an
error itself), a three-valued oracle `Nat → GenApiResult` for the
variant snapshot (whose `generateEmail` distinguishes a non-nil API
error from a nil-error empty choice list), a `Nat → Bool` oracle for the
per-row dispatch outcome, an `Option (List Nat)` for the attachment
bytes (`none` = unreadable), and an `Option String` for the
progress-file content (`none` = missing file).
-/

set_option maxRecDepth 4096

namespace EmailDrafts

/-- The `maxDrafts` constant from `main.go`. -/
def maxDrafts : Nat := 30

/-- The `schoolName` constant from `main.go`. -/
def schoolName : String := "School of Information and Software Engineering, University of Electronic Science and Technology of China (UESTC)"

/-- The `attachmentPath` constant from `main.go`. -/
def attachmentPath : String := "UsamaShoukatCV.pdf"

/-- The `scholarshipType` constant from the second snapshot in `src/unnamed/part_001`. -/
def scholarshipType : String := "CSC Scholarship"

/-! ## Go string primitives used by the row extractor and cursor loader -/

/-- The whitespace predicate of Go's `unicode.IsSpace`, restricted to the
ASCII range (the repository's data is ASCII in the relevant fields). -/
def goIsSpace (c : Char) : Bool :=
  c = ' ' || c = '\t' || c = '\n' || c = '\x0b' || c = '\x0c' || c = '\r'

/-- Go `strings.TrimSpace`: drop leading and trailing whitespace. -/
def trimS (s : String) : String :=
  ⟨((s.data.dropWhile goIsSpace).reverse.dropWhile goIsSpace).reverse⟩

/-- Go `strings.SplitN(s, ":", 2)`: if `s` contains a colon, the part
before the first colon and everything after it; otherwise just `[s]`. -/
def splitN2 (s : String) : List String :=
  if s.data.contains ':' then
    [⟨s.data.takeWhile (fun c => !(c = ':'))⟩,
     ⟨(s.data.dropWhile (fun c => !(c = ':'))).tail⟩]
  else [s]

/-! ## Row extractor (`generateDrafts` loop body, `main.go` lines 106-126) -/

/-- A validated recipient: name, email and research text. -/
structure Recipient where
  name : String
  email : String
  research : String
deriving DecidableEq

/-- The row-validation logic of the `generateDrafts` loop: skip rows with
fewer than 3 columns, trim the composite `Name:Email` field (column 1) and
the research field (column 2), skip if either is empty, split the composite
on the first colon, skip unless both trimmed parts are non-empty. -/
def extractRecipient (row : List String) : Option Recipient :=
  if row.length < 3 then none
  else
    let profInfo := trimS (row.getD 1 "")
    let research := trimS (row.getD 2 "")
    if profInfo = "" || research = "" then none
    else
      let parts := splitN2 profInfo
      if parts.length < 2 then none
      else
        let name := trimS (parts.getD 0 "")
        let email := trimS (parts.getD 1 "")
        if name = "" || email = "" then none
        else some ⟨name, email, research⟩

/-! ## Batch cursor (`generateDrafts`, `main.go` lines 70-82 and 146-151) -/

/-- Digit accumulation used by the `fmt.Sscanf("%d")` model. -/
def digitsToNat (ds : List Char) : Nat :=
  ds.foldl (fun a c => a * 10 + (c.toNat - 48)) 0

/-- The digit-consuming tail of the `%d` scan: take the longest leading
run of digits; fail if there is none. -/
def scanDigits (cs : List Char) (neg : Bool) : Option Int :=
  let ds := cs.takeWhile Char.isDigit
  if ds = [] then none
  else some (if neg then -(digitsToNat ds : Int) else (digitsToNat ds : Int))

/-- Model of Go `fmt.Sscanf(s, "%d", &n)`: skip leading whitespace, read an
optional sign and a non-empty run of decimal digits; `none` on failure. -/
def scanInt (s : String) : Option Int :=
  let cs := s.data.dropWhile goIsSpace
  if cs.headD 'x' = '-' then scanDigits cs.tail true
  else if cs.headD 'x' = '+' then scanDigits cs.tail false
  else scanDigits cs false

/-- The start-index load of `generateDrafts` (`main.go` lines 70-78):
default 1, overwritten by whatever integer `Sscanf` reads from the
progress file when the file exists and parses. -/
def loadStart (content : Option String) : Int :=
  match content with
  | none => 1
  | some s =>
    match scanInt s with
    | none => 1
    | some n => n

/-- The end-of-run cursor computation (`main.go` lines 80 and 146-151):
`endIndex := start + batchSize`, clamped down to `totalRows` before the
progress file is written. -/
def computeWindowEnd (start : Int) (batchSize : Nat) (totalRows : Nat) : Int :=
  let endIndex := start + (batchSize : Int)
  if endIndex > (totalRows : Int) then (totalRows : Int) else endIndex

/-- Canonical decimal representation of a natural number, as written by
Go's `fmt.Sprintf("%d", n)` for non-negative values. -/
def decDigitChar (d : Nat) : Char := Char.ofNat (48 + d)

/-- Decimal string of `n` (most significant digit first). -/
def decRepr (n : Nat) : String :=
  ⟨(Nat.digits 10 n).reverse.map decDigitChar⟩

/-! ## Base64 (`encoding/base64` as used by `buildRawEmail`) -/

/-- The standard base64 alphabet of `base64.StdEncoding`. -/
def b64Alphabet : List Char :=
  ['A','B','C','D','E','F','G','H','I','J','K','L','M','N','O','P',
   'Q','R','S','T','U','V','W','X','Y','Z',
   'a','b','c','d','e','f','g','h','i','j','k','l','m','n','o','p',
   'q','r','s','t','u','v','w','x','y','z',
   '0','1','2','3','4','5','6','7','8','9','+','/']

/-- The URL-safe base64 alphabet of `base64.URLEncoding`. -/
def b64UrlAlphabet : List Char :=
  ['A','B','C','D','E','F','G','H','I','J','K','L','M','N','O','P',
   'Q','R','S','T','U','V','W','X','Y','Z',
   'a','b','c','d','e','f','g','h','i','j','k','l','m','n','o','p',
   'q','r','s','t','u','v','w','x','y','z',
   '0','1','2','3','4','5','6','7','8','9','-','_']

/-- Character for a 6-bit value in a given alphabet. -/
def sextetCharA (alpha : List Char) (n : Nat) : Char := alpha.getD n 'A'

/-- Base64 encoding of a byte sequence over a given alphabet, with `=`
padding, 3 input bytes per 4 output characters (RFC 4648, as implemented
by `EncodeToString`). -/
def b64EncodeChars (alpha : List Char) : List Nat → List Char
  | [] => []
  | [a] =>
    [sextetCharA alpha (a / 4), sextetCharA alpha (a % 4 * 16), '=', '=']
  | [a, b] =>
    [sextetCharA alpha (a / 4), sextetCharA alpha (a % 4 * 16 + b / 16),
     sextetCharA alpha (b % 16 * 4), '=']
  | a :: b :: c :: rest =>
    sextetCharA alpha (a / 4) :: sextetCharA alpha (a % 4 * 16 + b / 16) ::
    sextetCharA alpha (b % 16 * 4 + c / 64) :: sextetCharA alpha (c % 64) ::
    b64EncodeChars alpha rest

/-- Go `base64.StdEncoding.EncodeToString` on a byte list, as characters. -/
def base64EncodeChars (bs : List Nat) : List Char := b64EncodeChars b64Alphabet bs

/-- Go `base64.URLEncoding.EncodeToString` on a byte list. -/
def base64UrlEncode (bs : List Nat) : String := ⟨b64EncodeChars b64UrlAlphabet bs⟩

/-- The 6-bit value of a standard-alphabet base64 character (position in the
alphabet; unknown characters map to 0 — the round-trip theorem only ever
decodes characters produced by the encoder). -/
def charSextet (c : Char) : Nat := b64Alphabet.indexOf c

/-- Standard base64 decoding: four characters at a time, with `==` / `=`
padding accepted only in the final quantum. -/
def base64DecodeChars : List Char → Option (List Nat)
  | [] => some []
  | c1 :: c2 :: c3 :: c4 :: rest =>
    if c3 = '=' then
      if c4 = '=' && rest.isEmpty then
        some [charSextet c1 * 4 + charSextet c2 / 16]
      else none
    else if c4 = '=' then
      if rest.isEmpty then
        some [charSextet c1 * 4 + charSextet c2 / 16,
              charSextet c2 % 16 * 16 + charSextet c3 / 4]
      else none
    else
      (base64DecodeChars rest).map
        (fun tl =>
          (charSextet c1 * 4 + charSextet c2 / 16) ::
          (charSextet c2 % 16 * 16 + charSextet c3 / 4) ::
          (charSextet c3 % 4 * 64 + charSextet c4) :: tl)
  | _ => none

/-! ## Line wrapping (`buildRawEmail`, `main.go` lines 290-296) -/

/-- The 76-character chunking of the attachment's base64 text: the Go loop
`for i := 0; i < len(encoded); i += 76` slicing `encoded[i:end]`. -/
def wrapLines : List Char → List (List Char)
  | [] => []
  | c :: cs => (c :: cs).take 76 :: wrapLines ((c :: cs).drop 76)
termination_by l => l.length
decreasing_by simp; omega

/-- Each chunk followed by CRLF, concatenated — the exact text the Go loop
appends to the message for the attachment body. -/
def wrapCRLF (cs : List Char) : List Char :=
  ((wrapLines cs).map (fun l => l ++ ['\r', '\n'])).flatten

/-- Removing the CRLF line endings again. -/
def stripCRLF (cs : List Char) : List Char :=
  cs.filter (fun c => !(c = '\r' || c = '\n'))

/-! ## Message composer (`generateEmailBody`, `main.go` lines 194-222) -/

/-- The fixed subject of `generateEmailBody` in `main.go`. -/
def mainSubject : String := "Request for Master's Supervision (September 2026 Intake)"

/-- Template text of `main.go` `generateEmailBody` before the `profName`
placeholder. -/
def mainBodyA : String := "\n<html>\n<body>\nDear Professor "

/-- Template text between the `profName` and `schoolName` placeholders. -/
def mainBodyB : String := ",<br><br>\n\nI hope you are in a good health. I am <b>Usama Shoukat</b>, and I recently completed my <b>Bachelor's in Computer Science</b> from the <b>Government College University of Faisalabad, Pakistan</b> with a CGPA of <b>3.51/4.00</b>. I have a strong background in <b>software engineering and backend systems</b> where I have worked with Golang, JavaScript, APIs, distributed systems and different AI tools.<br><br>\n\nI want to apply for a <b>Master’s Program under your supervision at the "

/-- Template text between the `schoolName` and `researchPara` placeholders. -/
def mainBodyC : String := "</b> via the <b>Chinese Government Scholarship (CSC) 2026</b>.<br><br>\n\n"

/-- Template text after the `researchPara` placeholder. -/
def mainBodyD : String := "<br><br>\n\nIf you are accepting new students, I would like to contribute to your research and learn under your guidance for the <b>2026 intake</b>. I have attached my CV for your review.<br><br>\n\nLooking forward to hearing back from you.<br><br>\n\nBest regards,<br>\n<b>Usama Shoukat</b><br>\nWeChat ID: UsamaShoukatCS<br>\nGitHub: <a href=\"https://github.com/usamashoukatcs\">github.com/usamashoukatcs</a><br>\nLinkedIn: <a href=\"https://www.linkedin.com/in/usama-shoukat/\">linkedin.com/in/usama-shoukat</a>\n</body>\n</html>\n"

/-- Function `generateEmailBody` from `main.go`: pure interpolation of the
professor name, the constant school name and the research paragraph into
the fixed template. -/
def generateEmailBody (profName researchPara : String) : String × String :=
  (mainSubject,
   mainBodyA ++ profName ++ mainBodyB ++ schoolName ++ mainBodyC ++ researchPara ++ mainBodyD)

/-- The fallback paragraph of `generateDrafts` (`main.go` line 131), used
when the OpenAI call fails: `fmt.Sprintf("Your research on %s strongly
aligns with my academic background and interests.", research)`. -/
def fallbackSentence (research : String) : String :=
  "Your research on " ++ research ++ " strongly aligns with my academic background and interests."

/-! ## Randomized-subject variant (second snapshot in `src/unnamed/part_001`) -/

/-- The fixed subject pool of `getRandomSubject`. -/
def subjects : List String :=
  ["Request for Master's Supervision (September 2026 Intake)",
   "Prospective Master's Student Interested in Your Research (2026 Intake)",
   "Supervision Inquiry for Master's Program (Fall 2026)",
   "Seeking Master's Supervision at Your Research Group (2026)",
   "Application for Master's Supervision - September 2026",
   "Interest in Joining Your Research Group for Master's 2026",
   "Inquiry Regarding Master's Supervision (2026 Admission)",
   "Exploring Master's Research Opportunities with You (2026)",
   "Request to Pursue Master's Studies Under Your Guidance (2026)",
   "Potential Master's Student Interested in Your Research Work"]

/-- Function `getRandomSubject` seeds a fresh PRNG with `time.Now().UnixNano()` and
returns `subjects[r.Intn(len(subjects))]`.  The hidden time-derived random
value is made an explicit input `pick`; `Intn` reduces it into the index
range. -/
def getRandomSubject (pick : Nat) : String := subjects.getD (pick % 10) ""

/-- The fixed `researchPlan` paragraph of the variant's `generateEmail`. -/
def researchPlan : String := "\nMy intended research plan involves exploring distributed systems and backend technologies using Go,\nwith an emphasis on building efficient, reliable, and scalable software systems.\nI am also interested in integrating AI-based optimization or automation approaches into software engineering problems.\n"

/-- Variant template text before the intro. -/
def rndBodyA : String := "\n<html>\n<body>\n"

/-- Variant template text between the intro and the research topics. -/
def rndBodyB : String := "<br><br>\n\nI am <b>Usama Shoukat</b> from Pakistan, and I have completed my Bachelor's in Computer Science\nwith a CGPA of <b>3.51/4.00</b> from Government College University Faisalabad, a well-known institution in Pakistan.<br><br>\n\nI came across your research profile and was deeply impressed by your work in <b>"

/-- Variant template text between the topics and the research plan. -/
def rndBodyC : String := "</b>.\nI find your research directions highly relevant to my academic background and interests.<br><br>\n\n"

/-- Variant template text between the research plan and the scholarship. -/
def rndBodyD : String := "<br><br>\n\nI am highly motivated to pursue a Master's degree under your supervision and intend to apply for the <b>"

/-- Variant template text after the scholarship name. -/
def rndBodyE : String := "</b>\n(or any equivalent scholarship offered by your institution).<br><br>\n\nIf you find my profile suitable, it would be an honor to discuss the possibility of joining your research group.\nI have attached my CV for your review.<br><br>\n\nThank you very much for your time and consideration.<br><br>\n\nBest regards,<br>\n<b>Usama Shoukat</b><br>\nWeChat ID: UsamaShoukatCS<br>\n</body>\n</html>\n"

/-- The intro paragraph of the variant's `generateEmail` (mode-dependent). -/
def rndIntro (profName : String) (followup : Bool) : String :=
  if followup then
    "\nRespected Professor " ++ profName ++ ",<br><br>\nI hope you are doing well. I wanted to kindly follow up on my previous email regarding the possibility of pursuing a Master's degree under your supervision."
  else
    "\nRespected Professor " ++ profName ++ ",<br><br>\nI hope you are doing well."

/-- The composing tail of the variant's `generateEmail` (after the OpenAI
call succeeded with trimmed content `snippet`): empty topics fall back to
a fixed phrase, the subject is drawn from the pool by the hidden random
value `pick`, and the body is fixed interpolation. -/
def generateEmailRnd (profName snippet : String) (followup : Bool) (pick : Nat) :
    String × String :=
  let researchTopics :=
    if snippet = "" then "computer science and related technologies" else snippet
  (getRandomSubject pick,
   rndBodyA ++ rndIntro profName followup ++ rndBodyB ++ researchTopics ++ rndBodyC ++
     researchPlan ++ rndBodyD ++ scholarshipType ++ rndBodyE)

/-- The template variants the claims range over: the `main.go` composer
and the randomized-subject `generateEmail` composer of the second
`part_001` snapshot (in its initial and followup modes). -/
inductive TemplateVariant where
  | initialMain : TemplateVariant
  | randomized : Bool → TemplateVariant
deriving DecidableEq

/-- The unified message composer.  `hidden` is the time-derived random
value consumed by `getRandomSubject`; the `main.go` composer ignores it. -/
def composeEmail (v : TemplateVariant) (name snippet : String) (hidden : Nat) :
    String × String :=
  match v with
  | .initialMain => generateEmailBody name snippet
  | .randomized fu => generateEmailRnd name snippet fu hidden

/-! ## MIME builder (`buildRawEmail`, `main.go` lines 256-303) -/

/-- Go `filepath.Split`: the file-name component after the last slash. -/
def fileNameOf (path : String) : String :=
  ⟨(path.data.reverse.takeWhile (fun c => !(c = '/'))).reverse⟩

/-- Go `filepath.Ext`: the suffix starting at the final dot, or empty. -/
def extOf (name : String) : String :=
  if name.data.contains '.' then
    ⟨'.' :: (name.data.reverse.takeWhile (fun c => !(c = '.'))).reverse⟩
  else ""

/-- Go `mime.TypeByExtension` for the extension actually used by this
program (`.pdf`); other extensions resolve to the empty string, which the
caller replaces by `application/octet-stream`. -/
def mimeTypeByExt (ext : String) : String :=
  if ext = ".pdf" then "application/pdf" else ""

/-- Function `buildRawEmail`: multipart/mixed assembly with the fixed boundary,
the HTML part, the base64-wrapped attachment part, and a final base64url
encoding of the whole message.  The attachment bytes arrive as
`Option (List Nat)`: `none` models an unreadable attachment file, on
which the builder fails exactly where `os.ReadFile` fails. -/
def buildRawEmail (toAddr subject plainBody attachmentFile : String)
    (attachment : Option (List Nat)) : Except String String :=
  let boundary := "BOUNDARY123"
  let header := "To: " ++ toAddr ++ "\r\n" ++ "Subject: " ++ subject ++ "\r\n" ++
    "MIME-Version: 1.0\r\n" ++ "Content-Type: multipart/mixed; boundary=" ++ boundary ++
    "\r\n" ++ "\r\n"
  let htmlPart := "--" ++ boundary ++ "\r\n" ++
    "Content-Type: text/html; charset=utf-8\r\n\r\n" ++ plainBody ++ "\r\n"
  match attachment with
  | none => Except.error ("open " ++ attachmentFile ++ ": no such file or directory")
  | some data =>
    let fileName := fileNameOf attachmentFile
    let mt := mimeTypeByExt (extOf fileName)
    let mimeType := if mt = "" then "application/octet-stream" else mt
    let attHead := "--" ++ boundary ++ "\r\n" ++
      "Content-Type: " ++ mimeType ++ "; name=\"" ++ fileName ++ "\"\r\n" ++
      "Content-Transfer-Encoding: base64\r\n" ++
      "Content-Disposition: attachment; filename=\"" ++ fileName ++ "\"\r\n\r\n"
    let attBody : String := ⟨wrapCRLF (base64EncodeChars data)⟩
    let closing := "--" ++ boundary ++ "--"
    let msg := header ++ htmlPart ++ attHead ++ attBody ++ closing
    Except.ok (base64UrlEncode (msg.toUTF8.toList.map (fun b => b.toNat)))

/-! ## Draft dispatcher and batch loop (`generateDrafts`, `main.go`) -/

/-- Outcome of `createDraft` for one recipient: the MIME build failed (the
Gmail call is never made), or the build succeeded and the Gmail draft
creation failed, or the draft was created. -/
inductive DraftResult where
  | buildError : DraftResult
  | dispatchFailed : DraftResult
  | created : DraftResult
deriving DecidableEq

/-- Function `createDraft`: build the raw message, return its error without
dispatching when the build fails, otherwise dispatch (`dispatchOk` is the
Gmail API outcome for this call). -/
def createDraftM (attachment : Option (List Nat)) (dispatchOk : Bool)
    (toAddr subject body : String) : DraftResult :=
  match buildRawEmail toAddr subject body attachmentPath attachment with
  | .error _ => .buildError
  | .ok _ => if dispatchOk then .created else .dispatchFailed

/-- What happened at one row index of the `main.go` batch loop. -/
inductive Outcome where
  | skippedLow : Outcome
  | skippedMalformed : Outcome
  | attempted : String → String → String → String → DraftResult → Outcome
deriving DecidableEq

/-- The `main.go` `generateDrafts` loop over the rows, carrying the row
index `i`: indices below `start` are skipped (`continue`), the loop breaks
at `endI`, malformed rows are skipped, and each valid recipient gets a
generated-or-fallback paragraph, a composed body and one draft attempt.
`gen i = none` models an OpenAI error or empty choice list at row `i`. -/
def loopGo (start endI : Int) (gen : Nat → Option String) (disp : Nat → Bool)
    (attachment : Option (List Nat)) : Nat → List (List String) → List Outcome
  | _, [] => []
  | i, row :: rest =>
    if (i : Int) < start then
      Outcome.skippedLow :: loopGo start endI gen disp attachment (i + 1) rest
    else if endI ≤ (i : Int) then []
    else
      match extractRecipient row with
      | none => Outcome.skippedMalformed :: loopGo start endI gen disp attachment (i + 1) rest
      | some r =>
        let para :=
          match gen i with
          | some p => p
          | none => fallbackSentence r.research
        let sb := generateEmailBody r.name para
        Outcome.attempted r.name r.email sb.1 sb.2
            (createDraftM attachment (disp i) r.email sb.1 sb.2) ::
          loopGo start endI gen disp attachment (i + 1) rest

/-- Number of drafts successfully created (the `count` variable). -/
def countOk (os : List Outcome) : Nat :=
  os.countP (fun o =>
    match o with
    | .attempted _ _ _ _ .created => true
    | _ => false)

/-- Number of rows on which a draft was attempted at all (a recipient was
actually processed). -/
def attemptedCount (os : List Outcome) : Nat :=
  os.countP (fun o =>
    match o with
    | .attempted _ _ _ _ _ => true
    | _ => false)

/-- Result of one complete `generateDrafts` run. -/
structure RunResult where
  outcomes : List Outcome
  count : Nat
  savedProgress : Int
deriving DecidableEq

/-- Function `generateDrafts` from `main.go`: fail on an empty/header-only sheet,
load the cursor, compute `endIndex = start + maxDrafts`, fail if Gmail
auth fails or the API key is empty, run the loop, then write back
`min(endIndex, len(rows))` to the progress file unconditionally. -/
def generateDraftsModel (progress : Option String) (rows : List (List String))
    (gmailAuthOk : Bool) (openAIKey : String) (gen : Nat → Option String)
    (disp : Nat → Bool) (attachment : Option (List Nat)) : Except String RunResult :=
  if rows.length ≤ 1 then Except.error "no data rows found"
  else
    let startIndex := loadStart progress
    let endIndex := startIndex + (maxDrafts : Int)
    if !gmailAuthOk then Except.error "gmail auth"
    else if openAIKey = "" then Except.error "OPENAI_API_KEY not set"
    else
      let outcomes := loopGo startIndex endIndex gen disp attachment 0 rows
      let newProgress :=
        if endIndex > (rows.length : Int) then (rows.length : Int) else endIndex
      Except.ok ⟨outcomes, countOk outcomes, newProgress⟩

/-! ## The variant loop of the second `part_001` snapshot

Its `generateDrafts` calls `generateEmail`, which performs the OpenAI
call itself.  `generateEmail` guards with
`if err != nil || len(resp.Choices) == 0 { ...; return "", "", err }`:
the error value is returned unchanged, so a non-nil API error makes the
caller `continue`, while a nil-error response with an empty choice list
returns empty subject and body together with a nil error — the caller
then proceeds and attempts a draft with empty subject and empty body. -/

/-- The OpenAI chat-completion outcome observed by the variant snapshot's
`generateEmail` at one row: the call returns a non-nil error, or succeeds
with zero choices, or succeeds with a first choice whose trimmed content
is carried by `content`. -/
inductive GenApiResult where
  | apiError : GenApiResult
  | noChoices : GenApiResult
  | content : String → GenApiResult
deriving DecidableEq

/-- Function `generateEmail` of the second `part_001` snapshot (lines
660-731): on `err != nil || len(resp.Choices) == 0` it logs and returns
`("", "", err)` — an API error propagates as a non-nil error, but an
empty choice list with a nil error yields empty subject and body with NO
error; on success the trimmed content (defaulted inside the template
builder when empty) is interpolated into the randomized-subject
template.  The final component is `err != nil` as seen by the caller. -/
def generateEmail (profName : String) (api : GenApiResult) (followup : Bool)
    (pick : Nat) : String × String × Bool :=
  match api with
  | .apiError => ("", "", true)
  | .noChoices => ("", "", false)
  | .content s =>
    let sb := generateEmailRnd profName s followup pick
    (sb.1, sb.2, false)

/-- Outcome of one row in the variant loop. -/
inductive OutcomeR where
  | skippedLow : OutcomeR
  | skippedMalformed : OutcomeR
  | genFailed : String → OutcomeR
  | attempted : String → String → String → String → DraftResult → OutcomeR
deriving DecidableEq

/-- The variant batch loop: identical row validation and window handling,
but the caller checks only `err != nil` on `generateEmail`'s result — a
non-nil generation error skips the recipient entirely (`continue`: no
fallback paragraph, no body, no draft attempt), while a nil-error result
(including the empty-choice-list case, which carries empty subject and
body) proceeds to one draft attempt. -/
def loopGoR (start endI : Int) (gen : Nat → GenApiResult) (pick : Nat → Nat)
    (disp : Nat → Bool) (attachment : Option (List Nat)) (followup : Bool) :
    Nat → List (List String) → List OutcomeR
  | _, [] => []
  | i, row :: rest =>
    if (i : Int) < start then
      OutcomeR.skippedLow :: loopGoR start endI gen pick disp attachment followup (i + 1) rest
    else if endI ≤ (i : Int) then []
    else
      match extractRecipient row with
      | none =>
        OutcomeR.skippedMalformed ::
          loopGoR start endI gen pick disp attachment followup (i + 1) rest
      | some r =>
        let sbe := generateEmail r.name (gen i) followup (pick i)
        if sbe.2.2 then
          OutcomeR.genFailed r.name ::
            loopGoR start endI gen pick disp attachment followup (i + 1) rest
        else
          OutcomeR.attempted r.name r.email sbe.1 sbe.2.1
              (createDraftM attachment (disp i) r.email sbe.1 sbe.2.1) ::
            loopGoR start endI gen pick disp attachment followup (i + 1) rest

/-- Whether the Gmail dispatch call was actually made for an outcome:
`buildError` means `createDraft` returned before calling the Drafts API. -/
def dispatchHappened : Outcome → Bool
  | .attempted _ _ _ _ .buildError => false
  | .attempted _ _ _ _ .dispatchFailed => true
  | .attempted _ _ _ _ .created => true
  | _ => false

/-! ## Helper lemmas: decimal representation round trip -/

theorem foldl_digits_rev (L : List Nat) (a : Nat) :
    L.reverse.foldl (fun x d => x * 10 + d) a = a * 10 ^ L.length + Nat.ofDigits 10 L := by
  induction L generalizing a with
  | nil => simp [Nat.ofDigits]
  | cons d L ih =>
    rw [List.reverse_cons, List.foldl_append, ih]
    simp only [List.foldl_cons, List.foldl_nil, List.length_cons, Nat.ofDigits_cons]
    rw [pow_succ]
    ring

theorem decDigitChar_toNat (d : Nat) (h : d < 10) : (decDigitChar d).toNat - 48 = d := by
  interval_cases d <;> decide

theorem decDigitChar_isDigit (d : Nat) (h : d < 10) : (decDigitChar d).isDigit = true := by
  interval_cases d <;> decide

theorem decDigitChar_not_space (d : Nat) (h : d < 10) : goIsSpace (decDigitChar d) = false := by
  interval_cases d <;> decide

theorem decDigitChar_ne_signs (d : Nat) (h : d < 10) :
    decDigitChar d ≠ '-' ∧ decDigitChar d ≠ '+' := by
  interval_cases d <;> decide

theorem digitsToNat_map (L : List Nat) :
    (∀ d ∈ L, d < 10) → ∀ a : Nat,
      (L.map decDigitChar).foldl (fun x c => x * 10 + (c.toNat - 48)) a =
        L.foldl (fun x d => x * 10 + d) a := by
  induction L with
  | nil => intro _ a; simp
  | cons d L ih =>
    intro h a
    simp only [List.map_cons, List.foldl_cons]
    rw [decDigitChar_toNat d (h d (by simp))]
    exact ih (fun x hx => h x (by simp [hx])) _

theorem scanInt_decRepr (n : Nat) (hn : n ≠ 0) : scanInt (decRepr n) = some (n : Int) := by
  have hne : Nat.digits 10 n ≠ [] := Nat.digits_ne_nil_iff_ne_zero.mpr hn
  have hlt : ∀ d ∈ (Nat.digits 10 n).reverse, d < 10 := by
    intro d hd
    exact Nat.digits_lt_base (by norm_num) (List.mem_reverse.mp hd)
  obtain ⟨d0, tl, hds⟩ : ∃ d0 tl, (Nat.digits 10 n).reverse = d0 :: tl := by
    cases h : (Nat.digits 10 n).reverse with
    | nil => exact absurd (by simpa using congrArg List.reverse h) hne
    | cons d0 tl => exact ⟨d0, tl, rfl⟩
  have hd0 : d0 < 10 := hlt d0 (by rw [hds]; simp)
  have htl : ∀ d ∈ tl, d < 10 := fun d hd => hlt d (by rw [hds]; simp [hd])
  have hdata : (decRepr n).data = decDigitChar d0 :: tl.map decDigitChar := by
    show ((Nat.digits 10 n).reverse.map decDigitChar) = _
    rw [hds, List.map_cons]
  rw [scanInt]
  simp only [hdata]
  rw [List.dropWhile_cons_of_neg (by simp [decDigitChar_not_space d0 hd0])]
  rw [List.headD_cons]
  rw [if_neg (decDigitChar_ne_signs d0 hd0).1, if_neg (decDigitChar_ne_signs d0 hd0).2]
  rw [scanDigits]
  have hall : ∀ c ∈ decDigitChar d0 :: tl.map decDigitChar, c.isDigit = true := by
    intro c hc
    rcases List.mem_cons.mp hc with rfl | hc
    · exact decDigitChar_isDigit d0 hd0
    · obtain ⟨d, hd, rfl⟩ := List.mem_map.mp hc
      exact decDigitChar_isDigit d (htl d hd)
  rw [List.takeWhile_eq_self_iff.mpr hall]
  simp only [reduceCtorEq, if_false, List.cons_ne_nil, if_neg]
  congr 1
  have : decDigitChar d0 :: tl.map decDigitChar = ((d0 :: tl).map decDigitChar) := by simp
  rw [digitsToNat, this, digitsToNat_map (d0 :: tl) (by rw [← hds]; exact hlt) 0]
  rw [← hds, foldl_digits_rev]
  simp [Nat.ofDigits_digits]

/-! ## Claim C1: the batch window computation -/

/-- C1 counterexample: with a loaded start index of 15, batch size 30 and
10 total rows, the computed end is `min(45, 10) = 10`, which is strictly
below the start index — the claimed `end >= start` fails exactly when the
loaded start index exceeds `totalRows`. -/
theorem computeWindowEnd_claim_false : computeWindowEnd 15 30 10 < 15 := by decide

/-- C1 (amended): the window end always equals
`min(start + batchSize, totalRows)`, and `end >= start` holds whenever
`start <= totalRows` (it fails when the loaded start exceeds the row
count, where the window is empty and the end is clamped to `totalRows`). -/
theorem computeWindowEnd_spec (start : Int) (batchSize totalRows : Nat) :
    computeWindowEnd start batchSize totalRows =
      min (start + (batchSize : Int)) (totalRows : Int) ∧
    (start ≤ (totalRows : Int) → start ≤ computeWindowEnd start batchSize totalRows) := by
  constructor
  · simp only [computeWindowEnd]
    rw [min_def]
    split_ifs <;> omega
  · intro h
    simp only [computeWindowEnd]
    split_ifs <;> omega

/-- C1 witness: at `start = 1`, `batchSize = 30`, `totalRows = 10` the
amended statement is concrete: the end is 10 and is at least the start. -/
theorem computeWindowEnd_spec_witness :
    computeWindowEnd 1 30 10 = min (1 + ((30 : Nat) : Int)) ((10 : Nat) : Int) ∧
      (1 : Int) ≤ computeWindowEnd 1 30 10 :=
  ⟨(computeWindowEnd_spec 1 30 10).1, (computeWindowEnd_spec 1 30 10).2 (by decide)⟩

/-! ## Claim C6: loading the start index -/

/-- C6: a cursor file holding the decimal representation of a positive
integer (at most the row count) loads as exactly that integer; a missing
file loads as the default 1, and an unparsable file loads as the default
1.  `loadStart` is a total function — it never fails its caller. -/
theorem loadStart_spec (n totalRows : Nat) (h1 : 1 ≤ n) (h2 : n ≤ totalRows) :
    loadStart (some (decRepr n)) = (n : Int) ∧
    loadStart none = 1 ∧
    ∀ s : String, scanInt s = none → loadStart (some s) = 1 := by
  refine ⟨?_, rfl, ?_⟩
  · rw [loadStart, scanInt_decRepr n (by omega)]
  · intro s hs
    rw [loadStart, hs]

/-- C6 witness: the cursor file "27" with 40 total rows loads as 27. -/
theorem loadStart_spec_witness : loadStart (some (decRepr 27)) = (27 : Int) :=
  (loadStart_spec 27 40 (by decide) (by decide)).1

/-! ## Claim C3: the start index is not always >= 1 -/

/-- C3 counterexample: a cursor file containing "0" produces start index
0, which is below 1 — the header row at index 0 is then inside the
processing window. -/
theorem loadStart_claim_false : loadStart (some "0") < 1 := by decide

/-- C3 (amended): the start index defaults to 1 for a missing or
unparsable cursor file and equals the parsed integer otherwise — so it is
at least 1 only in those cases; when the file parses to an integer at most
0 (and the window is non-empty), the header row at index 0 is not skipped
by the `i < startIndex` guard and is processed like a data row. -/
theorem loadStart_amended (content : Option String) :
    (content = none → loadStart content = 1) ∧
    (∀ s, content = some s → scanInt s = none → loadStart content = 1) ∧
    (∀ s n, content = some s → scanInt s = some n → loadStart content = n) ∧
    (∀ gen disp attachment (row : List String) rest,
      loadStart content ≤ 0 → 0 < loadStart content + (maxDrafts : Int) →
      ∃ o tl,
        loopGo (loadStart content) (loadStart content + maxDrafts) gen disp attachment 0
            (row :: rest) = o :: tl ∧
          o ≠ Outcome.skippedLow) := by
  refine ⟨fun h => by rw [h, loadStart], fun s hs hp => by rw [hs, loadStart, hp],
    fun s n hs hp => by rw [hs, loadStart, hp], ?_⟩
  intro gen disp attachment row rest h0 h30
  simp only [loopGo]
  rw [if_neg (by push_cast; omega), if_neg (by push_cast; omega)]
  cases hex : extractRecipient row with
  | none => exact ⟨_, _, rfl, by simp⟩
  | some r => exact ⟨_, _, rfl, by simp⟩

/-- C3 witness: for the concrete file content "0" the amended statement
gives start index 0, and the processing of a two-row sheet starts at the
header row (the first outcome is not a window skip). -/
theorem loadStart_amended_witness :
    loadStart (some "0") = 0 ∧
    ∃ o tl,
      loopGo (loadStart (some "0")) (loadStart (some "0") + maxDrafts) (fun _ => none)
          (fun _ => true) none 0 [["h"], ["x"]] = o :: tl ∧
        o ≠ Outcome.skippedLow :=
  ⟨(loadStart_amended (some "0")).2.2.1 "0" 0 rfl (by decide),
   (loadStart_amended (some "0")).2.2.2 (fun _ => none) (fun _ => true) none ["h"] [["x"]]
     (by decide) (by decide)⟩

/-! ## Claim C7: only well-formed rows produce a Recipient -/

/-- C7: a `Recipient` is produced only from a row with at least 3
columns, non-empty trimmed composite and research fields, and a
first-colon split of the composite into exactly two parts whose trims are
both non-empty; the recipient is built from these trimmed parts. -/
theorem extractRecipient_only_valid (row : List String) (r : Recipient)
    (h : extractRecipient row = some r) :
    3 ≤ row.length ∧
    trimS (row.getD 1 "") ≠ "" ∧
    trimS (row.getD 2 "") ≠ "" ∧
    ∃ nm em, splitN2 (trimS (row.getD 1 "")) = [nm, em] ∧
      trimS nm ≠ "" ∧ trimS em ≠ "" ∧
      r = ⟨trimS nm, trimS em, trimS (row.getD 2 "")⟩ := by
  simp only [extractRecipient] at h
  split_ifs at h with hlen hemp hparts hne
  have hsplit : ∃ nm em, splitN2 (trimS (row.getD 1 "")) = [nm, em] := by
    rw [splitN2]
    split_ifs with hc
    · exact ⟨_, _, rfl⟩
    · rw [splitN2, if_neg hc] at hparts
      simp at hparts
  obtain ⟨nm, em, hse⟩ := hsplit
  rw [hse] at hne h
  simp only [List.getD_cons_zero, List.getD_cons_succ] at hne h
  simp only [Bool.or_eq_true, decide_eq_true_eq, not_or] at hemp hne
  refine ⟨by omega, hemp.1, hemp.2, nm, em, hse, hne.1, hne.2, ?_⟩
  exact (Option.some_inj.mp h).symm

/-- C7 witness: the concrete row `["x", "Ann: ann@u.edu", "robotics"]`
produces the recipient (Ann, ann@u.edu, robotics), and the theorem's
conclusions hold for it. -/
theorem extractRecipient_only_valid_witness :
    3 ≤ (["x", "Ann: ann@u.edu", "robotics"] : List String).length ∧
    trimS ((["x", "Ann: ann@u.edu", "robotics"] : List String).getD 1 "") ≠ "" ∧
    trimS ((["x", "Ann: ann@u.edu", "robotics"] : List String).getD 2 "") ≠ "" ∧
    ∃ nm em,
      splitN2 (trimS ((["x", "Ann: ann@u.edu", "robotics"] : List String).getD 1 "")) =
          [nm, em] ∧
        trimS nm ≠ "" ∧ trimS em ≠ "" ∧
        (⟨"Ann", "ann@u.edu", "robotics"⟩ : Recipient) =
          ⟨trimS nm, trimS em,
           trimS ((["x", "Ann: ann@u.edu", "robotics"] : List String).getD 2 "")⟩ :=
  extractRecipient_only_valid ["x", "Ann: ann@u.edu", "robotics"]
    ⟨"Ann", "ann@u.edu", "robotics"⟩ (by decide)

/-! ## Helper lemmas: the batch loop -/

theorem loopGo_all_low (start endI : Int) (gen : Nat → Option String) (disp : Nat → Bool)
    (attachment : Option (List Nat)) :
    ∀ (rows : List (List String)) (i : Nat), (rows.length : Int) + i ≤ start →
      loopGo start endI gen disp attachment i rows =
        List.replicate rows.length Outcome.skippedLow := by
  intro rows
  induction rows with
  | nil => intro i _; rfl
  | cons row rest ih =>
    intro i hle
    simp only [List.length_cons] at hle
    push_cast at hle
    simp only [loopGo]
    rw [if_pos (by omega)]
    rw [ih (i + 1) (by push_cast; omega)]
    simp [List.replicate_succ]

theorem attemptedCount_replicate_low (n : Nat) :
    attemptedCount (List.replicate n Outcome.skippedLow) = 0 := by
  induction n with
  | zero => rfl
  | succ n ih =>
    simpa [attemptedCount, List.replicate_succ, List.countP_cons] using ih

theorem countOk_loopGo_le (start endI : Int) (gen : Nat → Option String) (disp : Nat → Bool)
    (attachment : Option (List Nat)) :
    ∀ (rows : List (List String)) (i : Nat),
      countOk (loopGo start endI gen disp attachment i rows) ≤
        (endI - max (i : Int) start).toNat := by
  intro rows
  induction rows with
  | nil => intro i; simp [loopGo, countOk]
  | cons row rest ih =>
    intro i
    simp only [loopGo]
    split_ifs with hlow hbrk
    · have hm1 : max ((i : Int)) start = start := max_eq_right (le_of_lt hlow)
      have hm2 : max (((i + 1 : Nat)) : Int) start = start := max_eq_right (by push_cast; omega)
      have := ih (i + 1)
      rw [hm2] at this
      rw [hm1]
      simpa [countOk, List.countP_cons] using this
    · simp [countOk]
    · have hm1 : max ((i : Int)) start = (i : Int) := max_eq_left (by omega)
      have hm2 : max (((i + 1 : Nat)) : Int) start = ((i + 1 : Nat) : Int) :=
        max_eq_left (by push_cast; omega)
      have hrec := ih (i + 1)
      rw [hm2] at hrec
      cases hex : extractRecipient row with
      | none =>
        rw [hm1]
        simp only [countOk, List.countP_cons] at hrec ⊢
        push_cast at hrec ⊢
        omega
      | some r =>
        rw [hm1]
        simp only [countOk, List.countP_cons] at hrec ⊢
        push_cast at hrec ⊢
        split <;> omega

theorem loopGo_no_dispatch (start endI : Int) (gen : Nat → Option String) (disp : Nat → Bool) :
    ∀ (rows : List (List String)) (i : Nat),
      ∀ o ∈ loopGo start endI gen disp none i rows, dispatchHappened o = false := by
  intro rows
  induction rows with
  | nil => intro i o ho; simp [loopGo] at ho
  | cons row rest ih =>
    intro i o ho
    simp only [loopGo] at ho
    split_ifs at ho with hlow hbrk
    · rcases List.mem_cons.mp ho with rfl | ho
      · rfl
      · exact ih (i + 1) o ho
    · simp at ho
    · cases hex : extractRecipient row with
      | none =>
        rw [hex] at ho
        rcases List.mem_cons.mp ho with rfl | ho
        · rfl
        · exact ih (i + 1) o ho
      | some r =>
        rw [hex] at ho
        rcases List.mem_cons.mp ho with rfl | ho
        · rfl
        · exact ih (i + 1) o ho

theorem loopGo_length_attach (start endI : Int) (gen : Nat → Option String) (disp : Nat → Bool)
    (a1 a2 : Option (List Nat)) :
    ∀ (rows : List (List String)) (i : Nat),
      (loopGo start endI gen disp a1 i rows).length =
        (loopGo start endI gen disp a2 i rows).length := by
  intro rows
  induction rows with
  | nil => intro i; rfl
  | cons row rest ih =>
    intro i
    simp only [loopGo]
    split_ifs with hlow hbrk
    · simp [ih (i + 1)]
    · rfl
    · cases hex : extractRecipient row with
      | none => simp [ih (i + 1)]
      | some r => simp [ih (i + 1)]

/-! ## Claim C2: the cursor file is rewritten unconditionally -/

/-- C2: whenever a run reaches its end (it got past setup), the saved
progress is `min(startIndex + maxDrafts, totalRows)` — for every
combination of per-recipient generation results, dispatch outcomes and
attachment readability; and when the loaded start index is at least the
row count, no recipient is processed and the saved progress is exactly
the row count. -/
theorem cursor_saved_unconditionally (progress : Option String) (rows : List (List String))
    (gmailAuthOk : Bool) (openAIKey : String) (gen : Nat → Option String) (disp : Nat → Bool)
    (attachment : Option (List Nat)) (res : RunResult)
    (h : generateDraftsModel progress rows gmailAuthOk openAIKey gen disp attachment =
      Except.ok res) :
    res.savedProgress = min (loadStart progress + (maxDrafts : Int)) (rows.length : Int) ∧
    ((rows.length : Int) ≤ loadStart progress →
      attemptedCount res.outcomes = 0 ∧ res.savedProgress = (rows.length : Int)) := by
  have hmd : ((maxDrafts : Nat) : Int) = 30 := by norm_num [maxDrafts]
  simp only [generateDraftsModel] at h
  split_ifs at h with hrows hauth hkey hsave <;>
  first
    | exact Except.noConfusion h
    | (obtain rfl := (Except.ok.inj h)
       refine ⟨by rw [min_def]; split_ifs <;> simp only <;> omega, fun hge => ⟨?_, ?_⟩⟩
       · simp only
         rw [loopGo_all_low (loadStart progress) _ gen disp attachment rows 0
           (by push_cast; omega)]
         exact attemptedCount_replicate_low rows.length
       · first
           | rfl
           | (simp only
              omega))

/-- C2 witness: a three-row sheet with no cursor file, failing generation
and failing dispatch still saves progress `min(1 + 30, 3) = 3`. -/
theorem cursor_saved_unconditionally_witness :
    ∃ res, generateDraftsModel none [["h"], ["a"], ["b"]] true "k" (fun _ => none)
        (fun _ => false) none = Except.ok res ∧
      res.savedProgress =
        min (loadStart none + (maxDrafts : Int)) (([["h"], ["a"], ["b"]] : List (List String)).length : Int) := by
  refine ⟨⟨[Outcome.skippedLow, Outcome.skippedMalformed, Outcome.skippedMalformed], 0, 3⟩,
    by rfl, ?_⟩
  exact (cursor_saved_unconditionally none [["h"], ["a"], ["b"]] true "k" (fun _ => none)
    (fun _ => false) none _ (by rfl)).1

/-! ## Claim C10: at most maxDrafts drafts per run -/

/-- C10: in every completed run the number of successfully created drafts
is at most `maxDrafts`: the loop visits at most `endIndex - startIndex =
maxDrafts` indices and increments the count at most once per index. -/
theorem drafts_at_most_maxDrafts (progress : Option String) (rows : List (List String))
    (gmailAuthOk : Bool) (openAIKey : String) (gen : Nat → Option String) (disp : Nat → Bool)
    (attachment : Option (List Nat)) (res : RunResult)
    (h : generateDraftsModel progress rows gmailAuthOk openAIKey gen disp attachment =
      Except.ok res) :
    res.count ≤ maxDrafts := by
  have hb := countOk_loopGo_le (loadStart progress) (loadStart progress + (maxDrafts : Int))
    gen disp attachment rows 0
  have hmd : ((maxDrafts : Nat) : Int) = 30 := by norm_num [maxDrafts]
  have hgoal : countOk (loopGo (loadStart progress) (loadStart progress + (maxDrafts : Int))
      gen disp attachment 0 rows) ≤ maxDrafts := by
    rcases le_total (loadStart progress) (((0 : Nat) : Int)) with hs | hs
    · rw [max_eq_left hs] at hb
      simp only [maxDrafts] at hb ⊢
      omega
    · rw [max_eq_right hs] at hb
      simp only [maxDrafts] at hb ⊢
      omega
  simp only [generateDraftsModel] at h
  split_ifs at h with hrows hauth hkey hsave <;>
  first
    | exact Except.noConfusion h
    | (obtain rfl := (Except.ok.inj h)
       exact hgoal)

/-- C10 witness: the concrete three-row run creates 0 drafts, which is at
most 30. -/
theorem drafts_at_most_maxDrafts_witness :
    (⟨[Outcome.skippedLow, Outcome.skippedMalformed, Outcome.skippedMalformed], 0, 3⟩ :
      RunResult).count ≤ maxDrafts :=
  drafts_at_most_maxDrafts none [["h"], ["a"], ["b"]] true "k" (fun _ => none) (fun _ => false)
    none _ (by rfl)

/-! ## Claim C8: unreadable attachment -/

/-- C8: for every recipient, when the attachment file is unreadable the
MIME build returns an error, the Gmail dispatch is skipped for that
recipient (no outcome of the run has a dispatched draft), and the batch
continues — the loop visits exactly as many rows as it would with a
readable attachment. -/
theorem attachment_unreadable_spec :
    (∀ toAddr subject body : String,
      ∃ e, buildRawEmail toAddr subject body attachmentPath none = Except.error e) ∧
    (∀ (start endI : Int) (gen : Nat → Option String) (disp : Nat → Bool) (i : Nat)
        (rows : List (List String)) (attach2 : Option (List Nat)),
      (∀ o ∈ loopGo start endI gen disp none i rows, dispatchHappened o = false) ∧
      (loopGo start endI gen disp none i rows).length =
        (loopGo start endI gen disp attach2 i rows).length) := by
  refine ⟨fun toAddr subject body => ⟨_, rfl⟩, ?_⟩
  intro start endI gen disp i rows attach2
  exact ⟨loopGo_no_dispatch start endI gen disp rows i,
    loopGo_length_attach start endI gen disp none attach2 rows i⟩

/-- C8 witness: at a concrete recipient and a concrete two-row sheet the
build fails, nothing is dispatched, and the loop length matches the
readable-attachment run. -/
theorem attachment_unreadable_spec_witness :
    (∃ e, buildRawEmail "ann@u.edu" "subj" "body" attachmentPath none = Except.error e) ∧
    (∀ o ∈ loopGo 1 31 (fun _ => none) (fun _ => true) none 0
        [["h"], ["x", "Ann: ann@u.edu", "robotics"]], dispatchHappened o = false) ∧
    (loopGo 1 31 (fun _ => none) (fun _ => true) none 0
        [["h"], ["x", "Ann: ann@u.edu", "robotics"]]).length =
      (loopGo 1 31 (fun _ => none) (fun _ => true) (some [37]) 0
        [["h"], ["x", "Ann: ann@u.edu", "robotics"]]).length :=
  ⟨attachment_unreadable_spec.1 "ann@u.edu" "subj" "body",
   attachment_unreadable_spec.2 1 31 (fun _ => none) (fun _ => true) 0
     [["h"], ["x", "Ann: ann@u.edu", "robotics"]] (some [37])⟩

/-! ## Claim C5: generation failure and the fallback sentence -/

/-- C5 counterexample: in the variant pipeline of the second `part_001`
snapshot, both failure modes named by the claim violate it at a concrete
two-row run.  A non-nil API error skips the recipient with no composed
body at all (only a window skip and a `genFailed` outcome), and a
nil-error empty choice list produces a draft attempt whose subject and
body are both empty — and the empty body does not contain the fallback
sentence for "robotics". -/
theorem generation_failure_claim_false :
    (loopGoR 1 31 (fun _ => GenApiResult.apiError) (fun _ => 0) (fun _ => true) (some [37])
        false 0 [["h"], ["x", "Ann: ann@u.edu", "robotics"]] =
      [OutcomeR.skippedLow, OutcomeR.genFailed "Ann"]) ∧
    (loopGoR 1 31 (fun _ => GenApiResult.noChoices) (fun _ => 0) (fun _ => true) (some [37])
        false 0 [["h"], ["x", "Ann: ann@u.edu", "robotics"]] =
      [OutcomeR.skippedLow,
       OutcomeR.attempted "Ann" "ann@u.edu" "" ""
         (createDraftM (some [37]) true "ann@u.edu" "" "")]) ∧
    ¬ ∃ p q, ("" : String) = p ++ (fallbackSentence "robotics" ++ q) := by
  refine ⟨rfl, rfl, ?_⟩
  rintro ⟨p, q, hpq⟩
  have hlen := congrArg String.length hpq
  have hfb : 0 < (fallbackSentence "robotics").length := by decide
  have h0 : ("" : String).length = 0 := rfl
  rw [h0, String.length_append, String.length_append] at hlen
  omega

/-- C5 (amended): in the `main.go` pipeline, a recipient whose
text-generation call fails (error or zero choices — both reach the
caller as a non-nil error there) gets the deterministic fallback
sentence, which appears verbatim inside the composed body, and the loop
continues with the remaining rows.  In the variant pipeline of the
second `part_001` snapshot, a non-nil API error skips the recipient
without any body and the loop continues, while a nil-error empty choice
list is not caught by the caller's `err != nil` check: a draft with
empty subject and empty body is attempted — and that empty body does not
contain the fallback sentence — before the loop continues. -/
theorem generation_failure_fallback (start endI : Int) (gen : Nat → Option String)
    (disp : Nat → Bool) (attachment : Option (List Nat)) (i : Nat)
    (row : List String) (rest : List (List String)) (r : Recipient)
    (hrow : extractRecipient row = some r) (hlow : ¬ ((i : Int) < start))
    (hhigh : (i : Int) < endI) (hgen : gen i = none) :
    (loopGo start endI gen disp attachment i (row :: rest) =
      Outcome.attempted r.name r.email
          (generateEmailBody r.name (fallbackSentence r.research)).1
          (generateEmailBody r.name (fallbackSentence r.research)).2
          (createDraftM attachment (disp i) r.email
            (generateEmailBody r.name (fallbackSentence r.research)).1
            (generateEmailBody r.name (fallbackSentence r.research)).2) ::
        loopGo start endI gen disp attachment (i + 1) rest) ∧
    (∃ p q, (generateEmailBody r.name (fallbackSentence r.research)).2 =
      p ++ (fallbackSentence r.research ++ q)) ∧
    (∀ (genR : Nat → GenApiResult) (pick : Nat → Nat) (followup : Bool),
      (genR i = GenApiResult.apiError →
        loopGoR start endI genR pick disp attachment followup i (row :: rest) =
          OutcomeR.genFailed r.name ::
            loopGoR start endI genR pick disp attachment followup (i + 1) rest) ∧
      (genR i = GenApiResult.noChoices →
        loopGoR start endI genR pick disp attachment followup i (row :: rest) =
          OutcomeR.attempted r.name r.email "" ""
              (createDraftM attachment (disp i) r.email "" "") ::
            loopGoR start endI genR pick disp attachment followup (i + 1) rest ∧
          ¬ ∃ p q, ("" : String) = p ++ (fallbackSentence r.research ++ q))) := by
  refine ⟨?_, ?_, ?_⟩
  · simp only [loopGo, if_neg hlow, if_neg (not_le.mpr hhigh), hrow, hgen]
  · refine ⟨mainBodyA ++ r.name ++ mainBodyB ++ schoolName ++ mainBodyC, mainBodyD, ?_⟩
    simp only [generateEmailBody, String.append_assoc]
  · intro genR pick followup
    constructor
    · intro hR
      simp only [loopGoR, if_neg hlow, if_neg (not_le.mpr hhigh), hrow, hR, generateEmail,
        if_true]
    · intro hR
      refine ⟨?_, ?_⟩
      · simp only [loopGoR, if_neg hlow, if_neg (not_le.mpr hhigh), hrow, hR, generateEmail,
          Bool.false_eq_true, if_false]
      · rintro ⟨p, q, hpq⟩
        have hlen := congrArg String.length hpq
        have h17 : 0 < ("Your research on " : String).length := by decide
        have h0 : ("" : String).length = 0 := rfl
        rw [h0, String.length_append, String.length_append] at hlen
        simp only [fallbackSentence, String.length_append] at hlen
        omega

/-- C5 witness: the behaviors at a concrete failing recipient: the
`main.go` outcome carries a body containing the fallback sentence for
"robotics", while the variant loop emits a bodyless `genFailed` on an
API error and an empty-subject/empty-body draft attempt on a nil-error
empty choice list. -/
theorem generation_failure_fallback_witness :
    (loopGo 1 31 (fun _ => none) (fun _ => true) none 1 [["x", "Ann: ann@u.edu", "robotics"]] =
      Outcome.attempted "Ann" "ann@u.edu"
          (generateEmailBody "Ann" (fallbackSentence "robotics")).1
          (generateEmailBody "Ann" (fallbackSentence "robotics")).2
          (createDraftM none true "ann@u.edu"
            (generateEmailBody "Ann" (fallbackSentence "robotics")).1
            (generateEmailBody "Ann" (fallbackSentence "robotics")).2) ::
        loopGo 1 31 (fun _ => none) (fun _ => true) none 2 []) ∧
    (∃ p q, (generateEmailBody "Ann" (fallbackSentence "robotics")).2 =
      p ++ (fallbackSentence "robotics" ++ q)) ∧
    (∀ (genR : Nat → GenApiResult) (pick : Nat → Nat) (followup : Bool),
      (genR 1 = GenApiResult.apiError →
        loopGoR 1 31 genR pick (fun _ => true) none followup 1
            [["x", "Ann: ann@u.edu", "robotics"]] =
          OutcomeR.genFailed "Ann" ::
            loopGoR 1 31 genR pick (fun _ => true) none followup 2 []) ∧
      (genR 1 = GenApiResult.noChoices →
        loopGoR 1 31 genR pick (fun _ => true) none followup 1
            [["x", "Ann: ann@u.edu", "robotics"]] =
          OutcomeR.attempted "Ann" "ann@u.edu" "" ""
              (createDraftM none true "ann@u.edu" "" "") ::
            loopGoR 1 31 genR pick (fun _ => true) none followup 2 [] ∧
          ¬ ∃ p q, ("" : String) = p ++ (fallbackSentence "robotics" ++ q))) :=
  generation_failure_fallback 1 31 (fun _ => none) (fun _ => true) none 1
    ["x", "Ann: ann@u.edu", "robotics"] [] ⟨"Ann", "ann@u.edu", "robotics"⟩
    (by decide) (by decide) (by decide) rfl

/-! ## Claim C4: determinism of the message composer -/

/-- C4 counterexample: the randomized-subject variant returns different
subjects for the same recipient name and snippet on two invocations whose
hidden time-seeded random values differ — so the composer is not a
function of (name, snippet, variant) alone. -/
theorem compose_claim_false :
    (composeEmail (TemplateVariant.randomized false) "Ann" "robotics" 0).1 ≠
      (composeEmail (TemplateVariant.randomized false) "Ann" "robotics" 1).1 := by
  decide

/-- C4 (amended): the composed HTML body is deterministic in (name,
snippet, variant) for every variant, and the `main.go` composer is fully
deterministic — both subject and body; only the randomized variant's
subject depends on the hidden time-seeded random value. -/
theorem compose_deterministic (v : TemplateVariant) (name snippet : String)
    (hidden1 hidden2 : Nat) :
    (composeEmail v name snippet hidden1).2 = (composeEmail v name snippet hidden2).2 ∧
    (v = TemplateVariant.initialMain →
      composeEmail v name snippet hidden1 = composeEmail v name snippet hidden2) := by
  cases v with
  | initialMain => exact ⟨rfl, fun _ => rfl⟩
  | randomized fu => exact ⟨rfl, fun hv => by cases hv⟩

/-- C4 witness: for the `main.go` composer at concrete inputs, two
invocations with different hidden values agree exactly. -/
theorem compose_deterministic_witness :
    composeEmail TemplateVariant.initialMain "Ann" "robotics" 0 =
      composeEmail TemplateVariant.initialMain "Ann" "robotics" 1 :=
  (compose_deterministic TemplateVariant.initialMain "Ann" "robotics" 0 1).2 rfl

/-! ## Helper lemmas: base64 and line wrapping -/

theorem sextetA_std_keep (n : Nat) :
    (!(sextetCharA b64Alphabet n = '\r' || sextetCharA b64Alphabet n = '\n')) = true := by
  have h : sextetCharA b64Alphabet n = 'A' ∨ sextetCharA b64Alphabet n ∈ b64Alphabet := by
    rw [sextetCharA, List.getD_eq_getElem?_getD]
    cases hg : b64Alphabet[n]? with
    | none => left; rfl
    | some c =>
      right
      simpa using List.getElem?_mem hg
  have hall : ∀ c ∈ b64Alphabet, (!(c = '\r' || c = '\n')) = true := by decide
  rcases h with h | h
  · rw [h]; decide
  · exact hall _ h

theorem encodeChars_keep : ∀ bs : List Nat,
    ∀ x ∈ base64EncodeChars bs, (!(x = '\r' || x = '\n')) = true
  | [] => by intro x hx; simp [base64EncodeChars, b64EncodeChars] at hx
  | [a] => by
    intro x hx
    simp only [base64EncodeChars, b64EncodeChars, List.mem_cons,
      List.not_mem_nil, or_false] at hx
    rcases hx with rfl | rfl | rfl | rfl
    · exact sextetA_std_keep _
    · exact sextetA_std_keep _
    · decide
    · decide
  | [a, b] => by
    intro x hx
    simp only [base64EncodeChars, b64EncodeChars, List.mem_cons,
      List.not_mem_nil, or_false] at hx
    rcases hx with rfl | rfl | rfl | rfl
    · exact sextetA_std_keep _
    · exact sextetA_std_keep _
    · exact sextetA_std_keep _
    · decide
  | a :: b :: c :: rest => by
    intro x hx
    simp only [base64EncodeChars, b64EncodeChars, List.mem_cons] at hx
    rcases hx with rfl | rfl | rfl | rfl | hx
    · exact sextetA_std_keep _
    · exact sextetA_std_keep _
    · exact sextetA_std_keep _
    · exact sextetA_std_keep _
    · exact encodeChars_keep rest x (by simpa [base64EncodeChars] using hx)

theorem charSextet_sextetChar :
    ∀ n : Nat, n < 64 → charSextet (sextetCharA b64Alphabet n) = n := by decide

theorem sextetChar_ne_pad : ∀ n : Nat, n < 64 → sextetCharA b64Alphabet n ≠ '=' := by decide

theorem wrapLines_join : ∀ cs : List Char, (wrapLines cs).flatten = cs
  | [] => by simp [wrapLines]
  | c :: cs => by
    simp only [wrapLines, List.flatten_cons]
    rw [wrapLines_join ((c :: cs).drop 76)]
    exact List.take_append_drop 76 (c :: cs)
termination_by cs => cs.length
decreasing_by simp; omega

theorem wrapLines_sub : ∀ cs : List Char, ∀ l ∈ wrapLines cs, ∀ x ∈ l, x ∈ cs
  | [] => by simp [wrapLines]
  | c :: cs => by
    intro l hl x hx
    simp only [wrapLines, List.mem_cons] at hl
    rcases hl with rfl | hl
    · exact List.take_subset _ _ hx
    · exact List.drop_subset 76 (c :: cs) (wrapLines_sub ((c :: cs).drop 76) l hl x hx)
termination_by cs => cs.length
decreasing_by simp; omega

theorem wrapLines_le76 : ∀ cs : List Char, ∀ l ∈ wrapLines cs, l.length ≤ 76
  | [] => by simp [wrapLines]
  | c :: cs => by
    intro l hl
    simp only [wrapLines, List.mem_cons] at hl
    rcases hl with rfl | hl
    · simp only [List.length_take]
      omega
    · exact wrapLines_le76 ((c :: cs).drop 76) l hl
termination_by cs => cs.length
decreasing_by simp; omega

theorem wrapLines_full : ∀ cs : List Char, ∀ l ∈ (wrapLines cs).dropLast, l.length = 76
  | [] => by simp [wrapLines]
  | c :: cs => by
    intro l hl
    simp only [wrapLines] at hl
    by_cases hnil : wrapLines ((c :: cs).drop 76) = []
    · rw [hnil] at hl
      simp at hl
    · rw [List.dropLast_cons_of_ne_nil hnil] at hl
      rcases List.mem_cons.mp hl with rfl | hl
      · have hdrop : (c :: cs).drop 76 ≠ [] := by
          intro hd
          exact hnil (by rw [hd]; simp [wrapLines])
        have hlen : 76 < (c :: cs).length := by
          by_contra hle
          exact hdrop (List.drop_eq_nil_iff.mpr (by omega))
        simp only [List.length_take]
        omega
      · exact wrapLines_full ((c :: cs).drop 76) l hl
termination_by cs => cs.length
decreasing_by simp; omega

theorem stripCRLF_wrapCRLF (cs : List Char)
    (hkeep : ∀ x ∈ cs, (!(x = '\r' || x = '\n')) = true) :
    stripCRLF (wrapCRLF cs) = cs := by
  rw [stripCRLF, wrapCRLF, List.filter_flatten, List.map_map]
  have hcongr : ∀ l ∈ wrapLines cs,
      (List.filter (fun x => !(x = '\r' || x = '\n')) ∘ fun l => l ++ ['\r', '\n']) l =
        id l := by
    intro l hl
    simp only [Function.comp_apply, id_eq, List.filter_append]
    have hpad : List.filter (fun x => !(x = '\r' || x = '\n')) ['\r', '\n'] = [] := by decide
    rw [hpad, List.append_nil]
    exact List.filter_eq_self.mpr (fun a ha => hkeep a (wrapLines_sub cs l hl a ha))
  rw [List.map_congr_left hcongr, List.map_id]
  exact wrapLines_join cs

theorem decode_encode : ∀ bs : List Nat, (∀ b ∈ bs, b < 256) →
    base64DecodeChars (base64EncodeChars bs) = some bs
  | [], _ => rfl
  | [a], h => by
    have ha : a < 256 := h a (by simp)
    have h1 := charSextet_sextetChar (a / 4) (by omega)
    have h2 := charSextet_sextetChar (a % 4 * 16) (by omega)
    simp [base64EncodeChars, b64EncodeChars, base64DecodeChars, h1, h2]
    omega
  | [a, b], h => by
    have ha : a < 256 := h a (by simp)
    have hb : b < 256 := h b (by simp)
    have h1 := charSextet_sextetChar (a / 4) (by omega)
    have h2 := charSextet_sextetChar (a % 4 * 16 + b / 16) (by omega)
    have h3 := charSextet_sextetChar (b % 16 * 4) (by omega)
    have hne := sextetChar_ne_pad (b % 16 * 4) (by omega)
    simp [base64EncodeChars, b64EncodeChars, base64DecodeChars, h1, h2, h3, hne]
    omega
  | a :: b :: c :: rest, h => by
    have ha : a < 256 := h a (by simp)
    have hb : b < 256 := h b (by simp)
    have hc : c < 256 := h c (by simp)
    have hrest : ∀ x ∈ rest, x < 256 := fun x hx => h x (by simp [hx])
    have ih := decode_encode rest hrest
    simp only [base64EncodeChars] at ih
    have h1 := charSextet_sextetChar (a / 4) (by omega)
    have h2 := charSextet_sextetChar (a % 4 * 16 + b / 16) (by omega)
    have h3 := charSextet_sextetChar (b % 16 * 4 + c / 64) (by omega)
    have h4 := charSextet_sextetChar (c % 64) (by omega)
    have hne3 := sextetChar_ne_pad (b % 16 * 4 + c / 64) (by omega)
    have hne4 := sextetChar_ne_pad (c % 64) (by omega)
    simp [base64EncodeChars, b64EncodeChars, base64DecodeChars, h1, h2, h3, h4, hne3, hne4, ih]
    omega

/-! ## Claim C9: base64 line-wrapping round trip -/

/-- C9: for every byte sequence, standard-base64 encoding it, wrapping
the encoding into CRLF-terminated lines (as `buildRawEmail` does),
stripping the CRLFs again and decoding yields the original bytes exactly;
every emitted line has at most 76 characters and every line except the
last has exactly 76. -/
theorem attachment_base64_roundtrip (bs : List Nat) (h : ∀ b ∈ bs, b < 256) :
    base64DecodeChars (stripCRLF (wrapCRLF (base64EncodeChars bs))) = some bs ∧
    (∀ l ∈ wrapLines (base64EncodeChars bs), l.length ≤ 76) ∧
    (∀ l ∈ (wrapLines (base64EncodeChars bs)).dropLast, l.length = 76) := by
  refine ⟨?_, wrapLines_le76 _, wrapLines_full _⟩
  rw [stripCRLF_wrapCRLF _ (encodeChars_keep bs), decode_encode bs h]

/-- C9 witness: the concrete byte sequence `[77, 0, 255, 10, 5]` survives
the wrap/strip/decode round trip. -/
theorem attachment_base64_roundtrip_witness :
    base64DecodeChars (stripCRLF (wrapCRLF (base64EncodeChars [77, 0, 255, 10, 5]))) =
      some [77, 0, 255, 10, 5] :=
  (attachment_base64_roundtrip [77, 0, 255, 10, 5] (by decide)).1

end EmailDrafts
